import Mathlib

/-!
Verification development for the observation-simulator wrapper `lib/obssim.py`
of the webbpsf repository.

We give a shallow embedding of the module: the scene container
(`TargetScene.sources` with `addPointSource`), the spectral-type resolver
(`specFromSpectralType`, both lookup mode and listing mode), and the image
compositor (`TargetScene.calcImage`) with its per-source loop, offset
resolution, normalization branches, accumulation, provenance history,
post-loop noise check, `NSOURCES` update, rebinning step and output step.

Modelling conventions:
 * machine floats become exact reals (`ℝ`); the static lookup table holds
   exact rationals; `numpy` trigonometry becomes `Real.cos`, `Real.sin`,
   `Real.sqrt`, and `numpy.arctan2 y x` becomes `Complex.arg (x + y i)`,
   which has the same value range `(-pi, pi]` and the same value at the
   origin (`arg 0 = 0`, matching `arctan2 0 0 = 0`).
 * Python exceptions become an explicit error type `PyErr`; a function that
   can raise returns `Except PyErr _`.  A call that returns `Except.error`
   leaves every caller-held value unchanged (the Python exception aborts the
   statement), so state mutated before the raise is threaded explicitly.
 * a Python local variable that may be read before assignment
   (`effstim_Jy` in `calcImage`) is threaded as an `Option`; reading it
   while it is `none` is the `UnboundLocalError` that CPython raises.
 * FITS headers become a list of key-value cards plus a history list.  The
   formatted history strings of `add_history` are modelled by an inductive
   type recording the constructor and the numeric/string arguments that the
   Python `%` formatting interpolates; float rendering itself is not
   modelled.
 * the external collaborators (`instrument.calcPSF`, the synphot bandpass
   and `effstim`) are parameters of the model, bundled in `Instrument`.
-/

/-- Value stored in one FITS header card: pyfits accepts floats, ints and
strings; `DET_SAMP`, `OVERSAMP`, `CALCSAMP`, `NSOURCES` are integer cards,
`PIXELSCL` and the angles are float cards. -/
inductive HVal where
  | num (x : ℝ)
  | int (n : ℤ)
  | str (s : String)

/-- One entry of the FITS history log.  Each constructor corresponds to one
`add_history` call site in `obssim.py` (or to a line already present in the
header returned by the external simulator), carrying the values that the
Python code interpolates into the formatted string. -/
inductive HistEntry where
  | fromSimulator (s : String)
  | creating
  | imageCentered
  | imageOffset (r pa : ℝ)
  | addedSource (name : String) (sep pa : ℝ)
  | withEffstim (e : ℝ)
  | countsInImage (c : ℝ)
  | posInImage (r th : ℝ)

/-- A FITS header: ordered cards plus the free-text history log. -/
structure Header where
  cards : List (String × HVal)
  history : List HistEntry

/-- Card update as in `pyfits.Header.update`: replace the value of the first
card with the given key, or append a new card when the key is absent. -/
def setCard : List (String × HVal) → String → HVal → List (String × HVal)
  | [], k, v => [(k, v)]
  | (k0, v0) :: rest, k, v =>
      if k0 = k then (k, v) :: rest else (k0, v0) :: setCard rest k v

/-- Model of `header.update(key, value)`. -/
def Header.update (h : Header) (k : String) (v : HVal) : Header :=
  Header.mk (setCard h.cards k v) h.history

/-- First value stored under a key in a card list. -/
def getCard : List (String × HVal) → String → Option HVal
  | [], _ => none
  | (k0, v0) :: rest, k => if k0 = k then some v0 else getCard rest k

/-- Model of `header[key]` read access (as an `Option`; a missing key is a
`KeyError` at the call site). -/
def Header.get (h : Header) (k : String) : Option HVal :=
  getCard h.cards k

/-- Model of `header.add_history(text)`. -/
def Header.add_history (h : Header) (e : HistEntry) : Header :=
  Header.mk h.cards (h.history ++ [e])

/-- One HDU of a pyfits HDUList: a 2D pixel array and a header. -/
structure HDU where
  data : List (List ℝ)
  header : Header

/-- A pyfits HDUList, as returned by `calcPSF` and by `calcImage`. -/
abbrev HDUList := List HDU

/-- The Python exceptions the embedded code can raise.
`notImplementedError` is what `raise NotImplementedError(...)` would
produce; the source instead writes `raise NotImplemented("Not Yet")`,
which calls the non-callable `NotImplemented` singleton and therefore
raises a `TypeError` — see `PyErr.typeError`. -/
inductive PyErr where
  | lookupError (msg : String)
  | typeError (msg : String)
  | unboundLocalError (name : String)
  | keyError (key : String)
  | indexError (msg : String)
  | notImplementedError (msg : String)

/-- The `TypeError` that CPython raises when `raise NotImplemented("Not Yet")`
is executed (lines 151 and 182): the `NotImplemented` singleton is not
callable. -/
def notImplementedRaise : PyErr :=
  PyErr.typeError "NotImplementedType object is not callable"

/-- The `normalization` field of a source: Python `None` is modelled by the
surrounding `Option`; a value is either a `numbers.Number` or something
else (e.g. the tuple of renormalization parameters the docstring mentions). -/
inductive NormVal where
  | num (k : ℝ)
  | nonNumber

/-- Result of `pysynphot.Icat(catalog, teff, metallicity, logg)`.  The table
entries are exact decimals, kept as rationals. -/
structure PySpectrum where
  catalog : String
  teff : ℚ
  metallicity : ℚ
  logg : ℚ

/-- The `sptype_or_spectrum` argument of `addPointSource`: either a spectral
type string or an already-built spectrum object. -/
inductive SpectrumArg where
  | ofString (s : String)
  | ofSpectrum (sp : PySpectrum)

/-- One source descriptor, as stored in `TargetScene.sources` (line 82). -/
structure Source where
  spectrum : SpectrumArg
  separation : ℝ
  PA : ℝ
  normalization : Option NormVal
  name : String

/-- The static spectral-type lookup table of `specFromSpectralType`
(lines 245-286), in source order. -/
def lookuptable : List (String × ℚ × ℚ × ℚ) :=
  [ ("O3V",   (50000, 0.0, 5.0)),
    ("O5V",   (45000, 0.0, 5.0)),
    ("O6V",   (40000, 0.0, 4.5)),
    ("O8V",   (35000, 0.0, 4.0)),
    ("O5I",   (40000, 0.0, 4.5)),
    ("O6I",   (40000, 0.0, 4.5)),
    ("O8I",   (34000, 0.0, 4.0)),
    ("B0V",   (30000, 0.0, 4.0)),
    ("B3V",   (19000, 0.0, 4.0)),
    ("B5V",   (15000, 0.0, 4.0)),
    ("B8V",   (12000, 0.0, 4.0)),
    ("B0III", (29000, 0.0, 3.5)),
    ("B5III", (15000, 0.0, 3.5)),
    ("B0I",   (26000, 0.0, 3.0)),
    ("B5I",   (14000, 0.0, 2.5)),
    ("A0V",   (9500, 0.0, 4.0)),
    ("A5V",   (8250, 0.0, 4.5)),
    ("A0I",   (9750, 0.0, 2.0)),
    ("A5I",   (8500, 0.0, 2.0)),
    ("F0V",   (7250, 0.0, 4.5)),
    ("F5V",   (6500, 0.0, 4.5)),
    ("F0I",   (7750, 0.0, 2.0)),
    ("F5I",   (7000, 0.0, 1.5)),
    ("G0V",   (6000, 0.0, 4.5)),
    ("G5V",   (5750, 0.0, 4.5)),
    ("G0III", (5750, 0.0, 3.0)),
    ("G5III", (5250, 0.0, 2.5)),
    ("G0I",   (5500, 0.0, 1.5)),
    ("G5I",   (4750, 0.0, 1.0)),
    ("K0V",   (5250, 0.0, 4.5)),
    ("K5V",   (4250, 0.0, 4.5)),
    ("K0III", (4750, 0.0, 2.0)),
    ("K5III", (4000, 0.0, 1.5)),
    ("K0I",   (4500, 0.0, 1.0)),
    ("K5I",   (3750, 0.0, 0.5)),
    ("M0V",   (3750, 0.0, 4.5)),
    ("M2V",   (3500, 0.0, 4.5)),
    ("M5V",   (3500, 0.0, 5.0)),
    ("M0III", (3750, 0.0, 1.5)),
    ("M0I",   (3750, 0.0, 0.0)),
    ("M2I",   (3500, 0.0, 0.0)) ]

/-- The error message built at line 306 of the source. -/
def lookupErrMsg (sptype : String) : String :=
  "Lookup table does not include spectral type " ++ sptype

/-- Model of `specFromSpectralType(sptype)` in lookup mode (lines 303-308):
the `try`/`except` around the table access turns the `KeyError` of a missing
key into a `LookupError` naming the key, and a present key is fed to
`pysynphot.Icat`. -/
def specFromSpectralType (sptype : String) : Except PyErr PySpectrum :=
  match lookuptable.lookup sptype with
  | some (t, m, g) => Except.ok (PySpectrum.mk "ck04models" t m g)
  | none => Except.error (PyErr.lookupError (lookupErrMsg sptype))

/-- The letter-class base values of the local dict `lettervals` at line
293, as a lookup function.  In Python an unknown letter would be a
`KeyError`; the function is only ever applied to first letters of
`lookuptable` keys, where it is total, and returns 0 elsewhere. -/
def lettervals (c : Char) : ℚ :=
  if c = 'O' then 0
  else if c = 'B' then 10
  else if c = 'A' then 20
  else if c = 'F' then 30
  else if c = 'G' then 40
  else if c = 'K' then 50
  else if c = 'M' then 60
  else 0

/-- Model of the local `sort_sptype` key function (lines 291-299): letter
class base value, plus the integer value of the digit, plus the fractional
luminosity tie-break decided by substring tests in the source order
(`"III"` first, then `"I"`, then `"V"`). -/
def sort_sptype (typestr : String) : ℚ :=
  let cs := typestr.toList
  let lv : ℚ := lettervals (cs.headD ' ')
  let dv : ℚ := ((cs.getD 1 '0').toNat : ℚ) - (('0').toNat : ℚ)
  let suffix : ℚ :=
    if ("III".toList <:+: cs) then 3/10
    else if ("I".toList <:+: cs) then 1/10
    else if ("V".toList <:+: cs) then 5/10
    else 0
  lv + dv + suffix

/-- The order in which `sptype_list.sort(key=sort_sptype)` arranges the
keys. -/
def spOrder (a b : String) : Prop :=
  sort_sptype a ≤ sort_sptype b

instance : DecidableRel spOrder :=
  fun a b => inferInstanceAs (Decidable (sort_sptype a ≤ sort_sptype b))

instance : IsTotal String spOrder :=
  IsTotal.mk fun a b => le_total (sort_sptype a) (sort_sptype b)

instance : IsTrans String spOrder :=
  IsTrans.mk fun _ _ _ hab hbc => le_trans hab hbc

/-- Model of `specFromSpectralType(sptype, return_list=True)` (lines
289-301): all table keys, sorted by `sort_sptype`.  (The CPython dict
iteration order before sorting is implementation defined; the sort by the
injective-on-keys ordinal makes the result independent of it.) -/
def specTypeList : List String :=
  List.insertionSort spOrder (lookuptable.map Prod.fst)

/-- Ordinal described by the specification text: letter class contributes
O=0, B=10, A=20, F=30, G=40, K=50, M=60; the following digit its integer
value; and the luminosity suffix (the characters after the digit)
contributes +0.1 for "I", +0.3 for "III", +0.5 for "V". -/
def specOrdinal (typestr : String) : ℚ :=
  let cs := typestr.toList
  let lv : ℚ :=
    if cs.headD ' ' = 'O' then 0
    else if cs.headD ' ' = 'B' then 10
    else if cs.headD ' ' = 'A' then 20
    else if cs.headD ' ' = 'F' then 30
    else if cs.headD ' ' = 'G' then 40
    else if cs.headD ' ' = 'K' then 50
    else if cs.headD ' ' = 'M' then 60
    else 0
  let dv : ℚ := ((cs.getD 1 '0').toNat : ℚ) - (('0').toNat : ℚ)
  let suffix : ℚ :=
    if cs.drop 2 = ['I'] then 1/10
    else if cs.drop 2 = ['I', 'I', 'I'] then 3/10
    else if cs.drop 2 = ['V'] then 5/10
    else 0
  lv + dv + suffix

/-- Model of `TargetScene.addPointSource` (lines 46-83).  The scene state is
passed and returned explicitly; an `Except.error` result models an
exception propagating out of the method before the `append` at line 82, so
the caller keeps the unchanged `sources` list.  Note the source appends the
original `sptype_or_spectrum` argument (the resolved spectrum local is
unused), which the model mirrors. -/
def addPointSource (sources : List Source) (sptype_or_spectrum : SpectrumArg)
    (name : String) (separation : ℝ) (PA : ℝ) (normalization : Option NormVal) :
    Except PyErr (List Source) :=
  match sptype_or_spectrum with
  | SpectrumArg.ofString s =>
      match specFromSpectralType s with
      | Except.error e => Except.error e
      | Except.ok _ =>
          Except.ok (sources ++ [Source.mk sptype_or_spectrum separation PA normalization name])
  | SpectrumArg.ofSpectrum _ =>
      Except.ok (sources ++ [Source.mk sptype_or_spectrum separation PA normalization name])

/-- The two `instrument.options` keys that `calcImage` writes
(`source_offset_r`, `source_offset_theta`, lines 121-136).  The mapping is
modelled by a structure because `calcImage` always sets both keys before
any read. -/
structure InstrumentOptions where
  source_offset_r : ℝ
  source_offset_theta : ℝ

/-- The external instrument collaborator: `calcPSF` (given the source
spectrum, the current offset options and the `rebin` flag; the remaining
keyword arguments are baked into the function) and the synthetic-photometry
pipeline `pysynphot.Observation(spectrum, instrument._getSynphotBandpass()).effstim("Jy")`
combined into one function. -/
structure Instrument where
  calcPSF : SpectrumArg → InstrumentOptions → Bool → HDUList
  effstimJy : SpectrumArg → ℝ

/-- Model of `numpy.arctan2 y x`: the argument of the complex number
`x + y i`, with range `(-pi, pi]` and `atan2 0 0 = 0`. -/
noncomputable def atan2 (y x : ℝ) : ℝ :=
  Complex.arg (Complex.ofReal x + Complex.ofReal y * Complex.I)

/-- Offset resolution for one source (lines 121-136): with no pointing
offset the pair is `(separation, PA - image_PA)`; with a pointing offset
both polar positions are converted to Cartesian coordinates, summed, and
converted back. -/
noncomputable def resolveOffset (image_PA : ℝ) (offset_r : Option ℝ)
    (offset_PA : ℝ) (sep PA : ℝ) : ℝ × ℝ :=
  match offset_r with
  | none => (sep, PA - image_PA)
  | some r =>
      let obj_x := sep * Real.cos (PA * Real.pi / 180)
      let obj_y := sep * Real.sin (PA * Real.pi / 180)
      let offset_x := r * Real.cos (offset_PA * Real.pi / 180)
      let offset_y := r * Real.sin (offset_PA * Real.pi / 180)
      let src_x := obj_x + offset_x
      let src_y := obj_y + offset_y
      let src_r := Real.sqrt (src_x ^ 2 + src_y ^ 2)
      let src_pa := atan2 src_y src_x * 180 / Real.pi
      (src_r, src_pa - image_PA)

/-- Elementwise `data *= k` (lines 149 and 157). -/
def scaleData (k : ℝ) (d : List (List ℝ)) : List (List ℝ) :=
  d.map (fun row => row.map (fun x => x * k))

/-- Elementwise `data += data` (line 173). -/
def addData (a b : List (List ℝ)) : List (List ℝ) :=
  List.zipWith (List.zipWith (fun x y => x + y)) a b

/-- Model of `data.sum()` (line 177). -/
def totalData (d : List (List ℝ)) : ℝ :=
  (d.map List.sum).sum

/-- State carried through the source loop of `calcImage`: the running sum
image (line 113, lazily initialized), the Python local `effstim_Jy`
(assigned only in the implicit-normalization branch at line 156, `none`
models the unassigned local), and the instrument options mapping. -/
structure LoopState where
  sum_image : Option HDUList
  effstim_Jy : Option ℝ
  options : InstrumentOptions

/-- The accumulation tail of the loop body (lines 159-178), shared by the
normalization branches: fold the scaled PSF into the running sum,
initializing it with the header annotations of lines 162-170 on the first
source, then append the four provenance history lines of lines 175-178.
Reading `effstim_Jy` at line 176 while the local is still unassigned is the
`UnboundLocalError` that CPython raises there. -/
noncomputable def accumulate (image_PA : ℝ) (offset_r : Option ℝ)
    (offset_PA : ℝ) (opts : InstrumentOptions) (obj : Source) (st : LoopState)
    (scaled0 : HDU) (psfRest : HDUList) (eff : Option ℝ) :
    Except PyErr LoopState :=
  let primaryAndRest : Except PyErr (HDU × HDUList) :=
    match st.sum_image with
    | none =>
        let hdr0 := scaled0.header.add_history HistEntry.creating
        let hdr1 := hdr0.update "IMAGE_PA" (HVal.num image_PA)
        let hdr2 := hdr1.update "OFFSET_R"
          (HVal.num (match offset_r with | none => 0 | some r => r))
        let hdr3 := hdr2.update "OFFSETPA" (HVal.num offset_PA)
        let hdr4 :=
          match offset_r with
          | none => hdr3.add_history HistEntry.imageCentered
          | some r => hdr3.add_history (HistEntry.imageOffset r offset_PA)
        Except.ok (HDU.mk scaled0.data hdr4, psfRest)
    | some simg =>
        match simg with
        | [] => Except.error (PyErr.indexError "list index out of range")
        | s0 :: srest =>
            Except.ok (HDU.mk (addData s0.data scaled0.data) s0.header, srest)
  match primaryAndRest with
  | Except.error e => Except.error e
  | Except.ok (p, rest) =>
      let hdrA := p.header.add_history
        (HistEntry.addedSource obj.name obj.separation obj.PA)
      match eff with
      | none => Except.error (PyErr.unboundLocalError "effstim_Jy")
      | some e =>
          let hdrB := hdrA.add_history (HistEntry.withEffstim e)
          let hdrC := hdrB.add_history
            (HistEntry.countsInImage (totalData scaled0.data))
          let hdrD := hdrC.add_history
            (HistEntry.posInImage opts.source_offset_r opts.source_offset_theta)
          Except.ok (LoopState.mk (some (HDU.mk p.data hdrD :: rest)) eff opts)

/-- One iteration of the source loop of `calcImage` (lines 116-178):
resolve the offset, write it into the instrument options, call the external
`calcPSF`, branch on the normalization (line 146-157; a non-number
normalization executes `raise NotImplemented("Not Yet")`, i.e. a
`TypeError`), and accumulate. -/
noncomputable def processSource (inst : Instrument) (rebin : Bool)
    (image_PA : ℝ) (offset_r : Option ℝ) (offset_PA : ℝ) (st : LoopState)
    (obj : Source) : Except PyErr LoopState :=
  let rth := resolveOffset image_PA offset_r offset_PA obj.separation obj.PA
  let opts := InstrumentOptions.mk rth.1 rth.2
  match inst.calcPSF obj.spectrum opts rebin with
  | [] => Except.error (PyErr.indexError "list index out of range")
  | psf0 :: psfRest =>
      match obj.normalization with
      | some NormVal.nonNumber => Except.error notImplementedRaise
      | some (NormVal.num k) =>
          accumulate image_PA offset_r offset_PA opts obj st
            (HDU.mk (scaleData k psf0.data) psf0.header) psfRest st.effstim_Jy
      | none =>
          let e := inst.effstimJy obj.spectrum
          accumulate image_PA offset_r offset_PA opts obj st
            (HDU.mk (scaleData e psf0.data) psf0.header) psfRest (some e)

/-- The `for obj in self.sources` loop of `calcImage`. -/
noncomputable def runSources (inst : Instrument) (rebin : Bool)
    (image_PA : ℝ) (offset_r : Option ℝ) (offset_PA : ℝ) :
    LoopState → List Source → Except PyErr LoopState
  | st, [] => Except.ok st
  | st, obj :: rest =>
      match processSource inst rebin image_PA offset_r offset_PA st obj with
      | Except.error e => Except.error e
      | Except.ok st2 => runSources inst rebin image_PA offset_r offset_PA st2 rest

/-- Split a list into consecutive blocks of `n` elements (the last block
may be shorter). -/
def chunkList {α : Type} (n : ℕ) : List α → List (List α)
  | [] => []
  | x :: xs => (x :: xs.take (n - 1)) :: chunkList n (xs.drop (n - 1))
termination_by l => l.length
decreasing_by
  simp only [List.length_drop, List.length_cons]
  omega

/-- Pointwise sum of a group of rows. -/
def sumRows : List (List ℝ) → List ℝ
  | [] => []
  | [r] => r
  | r :: rest => List.zipWith (fun x y => x + y) r (sumRows rest)

/-- Modelled from the spec: `webbpsf.rebin_array(data, rc=(n, n))`, which is
code of this repository outside `src/` — per the specification it
block-averages the oversampled data down to detector pixel scale: each
`n x n` block of the input becomes one output pixel holding the mean of the
block. -/
noncomputable def rebin_array (a : List (List ℝ)) (n : ℕ) : List (List ℝ) :=
  (chunkList n a).map (fun g =>
    (chunkList n (sumRows g)).map (fun c => c.sum / ((n * n : ℕ) : ℝ)))

/-- The downsampling step of `calcImage` (lines 188-200): when `rebin` is
set and the primary header carries `DET_SAMP > 1`, pop the last extension,
copy the primary, block-average its data by the oversampling factor, stamp
`OVERSAMP = 1`, `CALCSAMP = factor`, `EXTNAME = DET_SAMP`, multiply
`PIXELSCL` by the factor, and append the copy.  `DET_SAMP` is an integer
FITS card and `PIXELSCL` a float card; other stored shapes are modelled as
type errors. -/
noncomputable def rebinStep (rebin : Bool) (simg : HDUList) :
    Except PyErr HDUList :=
  match simg with
  | [] => Except.error (PyErr.indexError "list index out of range")
  | h :: t =>
      if rebin then
        match h.header.get "DET_SAMP" with
        | none => Except.error (PyErr.keyError "DET_SAMP")
        | some (HVal.num _) => Except.error (PyErr.typeError "DET_SAMP card is not an integer")
        | some (HVal.str _) => Except.error (PyErr.typeError "DET_SAMP card is not an integer")
        | some (HVal.int n) =>
            if 1 < n then
              match (h :: t).dropLast with
              | [] => Except.error (PyErr.indexError "list index out of range")
              | p :: prest =>
                  match p.header.get "DET_SAMP" with
                  | none => Except.error (PyErr.keyError "DET_SAMP")
                  | some (HVal.num _) => Except.error (PyErr.typeError "DET_SAMP card is not an integer")
                  | some (HVal.str _) => Except.error (PyErr.typeError "DET_SAMP card is not an integer")
                  | some (HVal.int m) =>
                      let hdr1 := p.header.update "OVERSAMP" (HVal.int 1)
                      let hdr2 := hdr1.update "CALCSAMP" (HVal.int m)
                      let hdr3 := hdr2.update "EXTNAME" (HVal.str "DET_SAMP")
                      match hdr3.get "PIXELSCL" with
                      | none => Except.error (PyErr.keyError "PIXELSCL")
                      | some (HVal.str _) => Except.error (PyErr.typeError "PIXELSCL card is not a number")
                      | some (HVal.int ps) =>
                          let rb := HDU.mk (rebin_array p.data m.toNat)
                            (hdr3.update "PIXELSCL" (HVal.int (ps * m)))
                          Except.ok ((p :: prest) ++ [rb])
                      | some (HVal.num ps) =>
                          let rb := HDU.mk (rebin_array p.data m.toNat)
                            (hdr3.update "PIXELSCL" (HVal.num (ps * (m : ℝ))))
                          Except.ok ((p :: prest) ++ [rb])
            else Except.ok (h :: t)
      else Except.ok (h :: t)

/-- Model of `os.path.basename`. -/
def basename (f : String) : String :=
  (f.splitOn "/").getLastD f

/-- Result of a successful `calcImage` call: the returned HDUList, the final
state of the caller-supplied `instrument.options` mapping, and the file
write performed at line 207 (path and content), if any. -/
structure CalcResult where
  image : HDUList
  options : InstrumentOptions
  written : Option (String × HDUList)

/-- Model of `TargetScene.calcImage` (lines 85-209): run the source loop,
raise for the unimplemented `noise` option (line 181-182, again the
`NotImplemented` call, a `TypeError`), update `NSOURCES` on the primary
header — which raises a `TypeError` when the accumulator is still `None`
(empty scene) —, run the rebinning step, and stamp `FILENAME` and write
the file when an output path is given.  The `clobber` flag only gates the
filesystem overwrite and has no observable effect in the model. -/
noncomputable def calcImage (inst : Instrument) (sources : List Source)
    (outfile : Option String) (noise rebin clobber : Bool) (PA : ℝ)
    (offset_r : Option ℝ) (offset_PA : ℝ) (opts0 : InstrumentOptions) :
    Except PyErr CalcResult :=
  match runSources inst rebin PA offset_r offset_PA
      (LoopState.mk none none opts0) sources with
  | Except.error e => Except.error e
  | Except.ok st =>
      if noise then Except.error notImplementedRaise
      else
        match st.sum_image with
        | none => Except.error (PyErr.typeError "NoneType object is unsubscriptable")
        | some simg =>
            match simg with
            | [] => Except.error (PyErr.indexError "list index out of range")
            | s0 :: srest =>
                let simg2 := HDU.mk s0.data
                  (s0.header.update "NSOURCES" (HVal.int sources.length)) :: srest
                match rebinStep rebin simg2 with
                | Except.error e => Except.error e
                | Except.ok simg3 =>
                    match outfile with
                    | none => Except.ok (CalcResult.mk simg3 st.options none)
                    | some f =>
                        match simg3 with
                        | [] => Except.error (PyErr.indexError "list index out of range")
                        | p :: prest =>
                            let final := HDU.mk p.data
                              (p.header.update "FILENAME" (HVal.str (basename f))) :: prest
                            Except.ok (CalcResult.mk final st.options (some (f, final)))

/-- Whether an `Except` result is a success. -/
def exceptOk {ε α : Type} : Except ε α → Bool
  | Except.ok _ => true
  | Except.error _ => false

/-- History log of the primary extension of a successful `calcImage`
result (empty for a failed call). -/
def primaryHistoryOf : Except PyErr CalcResult → List HistEntry
  | Except.ok res =>
      match res.image with
      | h :: _ => h.header.history
      | [] => []
  | Except.error _ => []

/-- A card of the primary extension of a successful `calcImage` result. -/
def primaryCardOf (r : Except PyErr CalcResult) (k : String) : Option HVal :=
  match r with
  | Except.ok res =>
      match res.image with
      | h :: _ => h.header.get k
      | [] => none
  | Except.error _ => none

/-- Final instrument options of a successful `calcImage` result. -/
def optionsOf : Except PyErr CalcResult → Option InstrumentOptions
  | Except.ok res => some res.options
  | Except.error _ => none

/-- Recognizer for the per-source "Added source ..." history lines. -/
def isAddedB : HistEntry → Bool
  | HistEntry.addedSource _ _ _ => true
  | _ => false

/-- The "Added source ..." history line that line 175 appends for a given
source. -/
def mkAdded (s : Source) : HistEntry :=
  HistEntry.addedSource s.name s.separation s.PA

/-- Oversampled primary extension of the concrete test PSF. -/
def unitPrimary : HDU :=
  HDU.mk [[1, 2], [3, 4]]
    (Header.mk [("OVERSAMP", HVal.int 2), ("DET_SAMP", HVal.int 2),
      ("PIXELSCL", HVal.num 3)] [])

/-- Detector-sampled second extension of the concrete test PSF. -/
def unitDet : HDU :=
  HDU.mk [[10]] (Header.mk [("EXTNAME", HVal.str "DET_SAMP")] [])

/-- A concrete PSF the test instrument returns: an oversampled primary
extension plus one detector-sampled extension, as `calcPSF` produces. -/
def unitPSF : HDUList :=
  [unitPrimary, unitDet]

/-- A concrete instrument for witness evaluations: every `calcPSF` call
returns `unitPSF` and every bandpass flux is 2 Jy. -/
def testInst : Instrument :=
  Instrument.mk (fun _ _ _ => unitPSF) (fun _ => 2)

/-- A source with implicit (absent) normalization. -/
def srcImplicitA : Source :=
  Source.mk (SpectrumArg.ofString "G0V") 1 0 none "star A"

/-- A second source with implicit normalization. -/
def srcImplicitB : Source :=
  Source.mk (SpectrumArg.ofString "K0V") 2 45 none "star B"

/-- A source with an explicit scalar normalization of 1, as in the first
call of `test_obssim` (line 226). -/
def srcExplicit1 : Source :=
  Source.mk (SpectrumArg.ofString "G0V") 1 0 (some (NormVal.num 1)) "G0V star"

/-- A source with an explicit scalar normalization of 2. -/
def srcExplicit2 : Source :=
  Source.mk (SpectrumArg.ofString "G0V") 1 0 (some (NormVal.num 2)) "G0V star"

/-- A source whose normalization is not a number (the tuple case of the
docstring). -/
def srcNonNumber : Source :=
  Source.mk (SpectrumArg.ofString "G0V") 1 0 (some NormVal.nonNumber) "bad norm"

example :
    calcImage testInst [srcExplicit1] none false false true 0 none 0
      (InstrumentOptions.mk 0 0) =
    Except.error (PyErr.unboundLocalError "effstim_Jy") := rfl

example :
    exceptOk (calcImage testInst [srcImplicitA, srcImplicitB] none false false
      true 0 none 0 (InstrumentOptions.mk 0 0)) = true := rfl

example :
    exceptOk (calcImage testInst [srcImplicitA, srcImplicitB] none false true
      true 0 none 0 (InstrumentOptions.mk 0 0)) = true := rfl

example :
    calcImage testInst [srcImplicitA] none true false true 0 none 0
      (InstrumentOptions.mk 0 0) = Except.error notImplementedRaise := rfl

example :
    calcImage testInst [srcNonNumber] (some "x.fits") false false true 0 none 0
      (InstrumentOptions.mk 0 0) = Except.error notImplementedRaise := rfl

example :
    calcImage testInst [] none false false true 0 none 0
      (InstrumentOptions.mk 0 0) =
    Except.error (PyErr.typeError "NoneType object is unsubscriptable") := rfl

theorem getCard_setCard_self (l : List (String × HVal)) (k : String) (v : HVal) :
    getCard (setCard l k v) k = some v := by
  induction l with
  | nil => simp [setCard, getCard]
  | cons a l ih =>
      obtain ⟨k0, v0⟩ := a
      by_cases hk : k0 = k
      · subst hk
        simp [setCard, getCard]
      · simp [setCard, hk, getCard, ih]

theorem getCard_setCard_ne (l : List (String × HVal)) (k k' : String) (v : HVal)
    (hne : k' ≠ k) : getCard (setCard l k v) k' = getCard l k' := by
  induction l with
  | nil => simp [setCard, getCard, Ne.symm hne]
  | cons a l ih =>
      obtain ⟨k0, v0⟩ := a
      by_cases hk : k0 = k
      · subst hk
        simp [setCard, getCard, Ne.symm hne]
      · simp [setCard, hk, getCard, ih]

theorem Header.get_update_self (h : Header) (k : String) (v : HVal) :
    (h.update k v).get k = some v :=
  getCard_setCard_self h.cards k v

theorem Header.get_update_ne (h : Header) (k k' : String) (v : HVal)
    (hne : k' ≠ k) : (h.update k v).get k' = h.get k' :=
  getCard_setCard_ne h.cards k k' v hne

theorem Header.history_update (h : Header) (k : String) (v : HVal) :
    (h.update k v).history = h.history := rfl

theorem Header.get_add_history (h : Header) (e : HistEntry) (k : String) :
    (h.add_history e).get k = h.get k := rfl

theorem Header.history_add_history (h : Header) (e : HistEntry) :
    (h.add_history e).history = h.history ++ [e] := rfl

/-- Instruments whose simulator-produced PSF headers carry no
"Added source" history lines of their own (any real `calcPSF` output
satisfies this: those lines are written only by `calcImage`). -/
def CleanPSF (inst : Instrument) : Prop :=
  ∀ (sp : SpectrumArg) (opts : InstrumentOptions) (rb : Bool) (h : HDU)
    (t : HDUList), inst.calcPSF sp opts rb = h :: t →
      h.header.history.filter isAddedB = []

/-- History log of the primary extension of an optional HDUList (empty when
absent). -/
def primaryHistOfOpt : Option HDUList → List HistEntry
  | some (h :: _) => h.header.history
  | some [] => []
  | none => []

/-- C9: calling `calcImage` on a scene with an empty source list never
returns a composite: the accumulator `sum_image` stays `None` through the
loop and the post-loop `sum_image[0].header.update("NSOURCES", ...)` raises
a `TypeError` on the `None` subscript, so a non-empty source list is an
unstated precondition of `calcImage`.  (With `noise=True` a different
error fires first; the second conjunct covers both flag values.) -/
theorem calcImage_empty_scene_never_returns (inst : Instrument)
    (outfile : Option String) (rebin clobber : Bool) (PA : ℝ)
    (offset_r : Option ℝ) (offset_PA : ℝ) (opts0 : InstrumentOptions) :
    calcImage inst [] outfile false rebin clobber PA offset_r offset_PA opts0 =
      Except.error (PyErr.typeError "NoneType object is unsubscriptable")
  ∧ ∀ noise : Bool, exceptOk
      (calcImage inst [] outfile noise rebin clobber PA offset_r offset_PA opts0) = false := by
  refine And.intro rfl ?_
  intro noise
  cases noise
  · rfl
  · rfl

/-- C1: the claim fails on the code.  For a source whose normalization is
an explicit scalar (here the first source of `test_obssim`, normalization
1.0), the provenance step at line 176 reads the local `effstim_Jy`, which
is assigned only in the implicit-normalization branch, so CPython raises
`UnboundLocalError` instead of appending the provenance entry: `calcImage`
does not complete the step. -/
theorem calcImage_explicit_norm_provenance_crashes :
    calcImage testInst [srcExplicit1] none false false true 0 none 0
      (InstrumentOptions.mk 0 0) =
    Except.error (PyErr.unboundLocalError "effstim_Jy") := rfl

/-- C2: the claim fails on the code.  For a scene with exactly one source
whose normalization is the explicit scalar 2, `calcImage` never returns a
composite at all: after scaling the PSF by 2 the provenance step at line
176 raises `UnboundLocalError` on the never-assigned `effstim_Jy`, so no
total-pixel-sum equation about a returned composite can hold. -/
theorem calcImage_single_scalar_source_never_returns :
    calcImage testInst [srcExplicit2] none false true true 0 none 0
      (InstrumentOptions.mk 0 0) =
    Except.error (PyErr.unboundLocalError "effstim_Jy") := rfl

/-- C5: the code does fail fast on the unimplemented paths — before any
output is written in the noise case — but the error it raises is not a
`NotImplementedError`-equivalent: `raise NotImplemented("Not Yet")` calls
the non-callable `NotImplemented` singleton, so CPython raises a
`TypeError` (a `PyErr.typeError`, not a `PyErr.notImplementedError`). -/
theorem calcImage_unimplemented_raises_plain_typeError :
    (calcImage testInst [srcImplicitA] (some "test_scene_F115W.fits") true
        false true 0 none 0 (InstrumentOptions.mk 0 0) =
      Except.error (PyErr.typeError "NotImplementedType object is not callable"))
  ∧ (calcImage testInst [srcNonNumber] (some "test_scene_F115W.fits") false
        false true 0 none 0 (InstrumentOptions.mk 0 0) =
      Except.error (PyErr.typeError "NotImplementedType object is not callable")) :=
  And.intro rfl rfl

/-- C3: for every string that is not a key of the spectral-type table,
`specFromSpectralType` fails with a `LookupError` whose message contains
the string, and `addPointSource` with that string fails with the same
error before appending anything, so the ordered source list is unchanged
(the error return models the exception propagating before the append at
line 82). -/
theorem unknown_sptype_fails_without_append (s : String)
    (hmiss : lookuptable.lookup s = none) :
    specFromSpectralType s = Except.error (PyErr.lookupError (lookupErrMsg s))
  ∧ s.toList <:+: (lookupErrMsg s).toList
  ∧ ∀ (sources : List Source) (name : String) (sep PA : ℝ)
      (norm : Option NormVal),
      addPointSource sources (SpectrumArg.ofString s) name sep PA norm =
        Except.error (PyErr.lookupError (lookupErrMsg s)) := by
  have hspec : specFromSpectralType s =
      Except.error (PyErr.lookupError (lookupErrMsg s)) := by
    unfold specFromSpectralType
    rw [hmiss]
  refine And.intro hspec (And.intro ?_ ?_)
  · have : (lookupErrMsg s).toList =
        "Lookup table does not include spectral type ".toList ++ s.toList := by
      unfold lookupErrMsg
      simp [String.toList, String.data_append]
    rw [this]
    exact (List.suffix_append _ _).isInfix
  · intro sources name sep PA norm
    simp [addPointSource, hspec]

/-- Witness for the unknown-spectral-type theorem at the concrete string
"Z9Z" of the specification. -/
theorem unknown_sptype_fails_without_append_witness :
    specFromSpectralType "Z9Z" =
      Except.error (PyErr.lookupError (lookupErrMsg "Z9Z"))
  ∧ "Z9Z".toList <:+: (lookupErrMsg "Z9Z").toList
  ∧ addPointSource [] (SpectrumArg.ofString "Z9Z") "mystery" 0 0 none =
      Except.error (PyErr.lookupError (lookupErrMsg "Z9Z")) := by
  have h := unknown_sptype_fails_without_append "Z9Z" (by decide)
  exact And.intro h.1 (And.intro h.2.1 (h.2.2 [] "mystery" 0 0 none))

theorem sorted_indexOf_lt_of_key_lt :
    ∀ (l : List String), List.Sorted spOrder l → ∀ (a b : String),
      a ∈ l → b ∈ l → sort_sptype a < sort_sptype b →
      l.indexOf a < l.indexOf b := by
  intro l
  induction l with
  | nil =>
      intro _ a b ha
      cases ha
  | cons c t ih =>
      intro hs a b ha hb hab
      rw [List.sorted_cons] at hs
      by_cases hca : c = a
      · subst hca
        have hbne : b ≠ c := by
          intro h
          rw [h] at hab
          exact lt_irrefl _ hab
        have hbt : b ∈ t := by
          rcases List.mem_cons.mp hb with h | h
          · exact absurd h hbne
          · exact h
        rw [List.indexOf_cons_self, List.indexOf_cons_ne _ (Ne.symm hbne)]
        exact Nat.succ_pos _
      · have hat : a ∈ t := by
          rcases List.mem_cons.mp ha with h | h
          · exact absurd h.symm hca
          · exact h
        have hbc : b ≠ c := by
          intro h
          subst h
          exact absurd (hs.1 a hat) (not_le.mpr hab)
        have hbt : b ∈ t := by
          rcases List.mem_cons.mp hb with h | h
          · exact absurd h hbc
          · exact h
        rw [List.indexOf_cons_ne _ hca, List.indexOf_cons_ne _ (Ne.symm hbc)]
        exact Nat.succ_lt_succ (ih hs.2 a b hat hbt hab)

theorem sort_sptype_G0III : sort_sptype "G0III" = 403/10 := by
  simp +decide [sort_sptype, lettervals, List.getD]
  norm_num

theorem sort_sptype_G0V : sort_sptype "G0V" = 405/10 := by
  simp +decide [sort_sptype, lettervals, List.getD]
  norm_num

theorem sort_sptype_G5V : sort_sptype "G5V" = 455/10 := by
  simp +decide [sort_sptype, lettervals, List.getD]
  norm_num

/-- C7: listing mode returns all table keys sorted by the ordinal, the
code ordinal agrees on every table key with the ordinal described by the
specification (letter base O=0, B=10, A=20, F=30, G=40, K=50, M=60, plus
the digit, plus +0.1 for a luminosity suffix "I", +0.3 for "III", +0.5 for
"V"), and in particular "G0III" sorts before "G0V", which sorts before
"G5V". -/
theorem specTypeList_sorted_by_ordinal :
    specTypeList.Perm (lookuptable.map Prod.fst)
  ∧ List.Sorted spOrder specTypeList
  ∧ (lookuptable.map Prod.fst).map sort_sptype =
      (lookuptable.map Prod.fst).map specOrdinal
  ∧ specTypeList.indexOf "G0III" < specTypeList.indexOf "G0V"
  ∧ specTypeList.indexOf "G0V" < specTypeList.indexOf "G5V" := by
  have hsorted : List.Sorted spOrder specTypeList :=
    List.sorted_insertionSort spOrder (lookuptable.map Prod.fst)
  have hmem1 : "G0III" ∈ specTypeList := by
    unfold specTypeList
    rw [List.mem_insertionSort]
    decide
  have hmem2 : "G0V" ∈ specTypeList := by
    unfold specTypeList
    rw [List.mem_insertionSort]
    decide
  have hmem3 : "G5V" ∈ specTypeList := by
    unfold specTypeList
    rw [List.mem_insertionSort]
    decide
  refine And.intro (List.perm_insertionSort spOrder _) (And.intro hsorted
    (And.intro ?_ (And.intro ?_ ?_)))
  · simp +decide [lookuptable, sort_sptype, specOrdinal, lettervals, List.getD]
  · exact sorted_indexOf_lt_of_key_lt _ hsorted _ _ hmem1 hmem2
      (by rw [sort_sptype_G0III, sort_sptype_G0V]; norm_num)
  · exact sorted_indexOf_lt_of_key_lt _ hsorted _ _ hmem2 hmem3
      (by rw [sort_sptype_G0V, sort_sptype_G5V]; norm_num)

theorem resolveOffset_some_theta_le (image_PA r offset_PA sep PA : ℝ) :
    (resolveOffset image_PA (some r) offset_PA sep PA).2 ≤ 180 - image_PA := by
  have hpi := Real.pi_pos
  simp only [resolveOffset, atan2]
  have key : ∀ z : ℂ, Complex.arg z * 180 / Real.pi - image_PA ≤ 180 - image_PA := by
    intro z
    have h1 : Complex.arg z ≤ Real.pi := Complex.arg_le_pi z
    have h2 : Complex.arg z * 180 / Real.pi ≤ 180 := by
      rw [div_le_iff hpi]
      nlinarith
    linarith
  exact key _

/-- C4 counterexample: for the source of `test_obssim` at position angle
245 degrees, `offset_r = 0` does not resolve the same offset pair as
`offset_r = None`: `arctan2` returns angles in `(-180, 180]`, so the
resolved angle is -115 degrees rather than 245 degrees. -/
theorem resolveOffset_zero_offset_differs :
    resolveOffset 0 (some 0) 0 1 245 ≠ resolveOffset 0 none 0 1 245 := by
  intro hEq
  have h1 := resolveOffset_some_theta_le 0 0 0 1 245
  rw [hEq] at h1
  simp only [resolveOffset] at h1
  norm_num at h1

/-- C4 as amended: for a source with positive separation and position
angle already in the principal range `(-180, 180]`, `offset_r = 0`
resolves exactly the same offset pair as `offset_r = None`, for every
scene position angle and offset position angle. -/
theorem resolveOffset_zero_matches_none (image_PA offset_PA sep PA : ℝ)
    (hsep : 0 < sep) (hlo : -180 < PA) (hhi : PA ≤ 180) :
    resolveOffset image_PA (some 0) offset_PA sep PA =
      resolveOffset image_PA none offset_PA sep PA := by
  have hpi := Real.pi_pos
  have hθlo : -Real.pi < PA * Real.pi / 180 := by
    rw [lt_div_iff (by norm_num : (0:ℝ) < 180)]
    nlinarith
  have hθhi : PA * Real.pi / 180 ≤ Real.pi := by
    rw [div_le_iff (by norm_num : (0:ℝ) < 180)]
    nlinarith
  simp only [resolveOffset, zero_mul, add_zero]
  refine Prod.ext ?_ ?_
  · show Real.sqrt _ = sep
    have hsq : (sep * Real.cos (PA * Real.pi / 180)) ^ 2 +
        (sep * Real.sin (PA * Real.pi / 180)) ^ 2 = sep ^ 2 := by
      have h := Real.sin_sq_add_cos_sq (PA * Real.pi / 180)
      nlinarith
    rw [hsq, Real.sqrt_sq hsep.le]
  · show atan2 _ _ * 180 / Real.pi - image_PA = PA - image_PA
    have harg : atan2 (sep * Real.sin (PA * Real.pi / 180))
        (sep * Real.cos (PA * Real.pi / 180)) = PA * Real.pi / 180 := by
      unfold atan2
      have hz : (↑(sep * Real.cos (PA * Real.pi / 180)) +
          ↑(sep * Real.sin (PA * Real.pi / 180)) * Complex.I : ℂ) =
          ↑sep * (Complex.cos ↑(PA * Real.pi / 180) +
            Complex.sin ↑(PA * Real.pi / 180) * Complex.I) := by
        rw [← Complex.ofReal_cos, ← Complex.ofReal_sin]
        push_cast
        ring
      rw [hz, Complex.arg_mul_cos_add_sin_mul_I hsep ⟨hθlo, hθhi⟩]
    rw [harg]
    field_simp

/-- Witness for the amended C4 theorem at a concrete in-range source. -/
theorem resolveOffset_zero_matches_none_witness :
    (0:ℝ) < 1 ∧ (-180:ℝ) < 90 ∧ (90:ℝ) ≤ 180 ∧
    resolveOffset 7 (some 0) 33 1 90 = resolveOffset 7 none 33 1 90 :=
  And.intro (by norm_num) (And.intro (by norm_num) (And.intro (by norm_num)
    (resolveOffset_zero_matches_none 7 33 1 90 (by norm_num) (by norm_num)
      (by norm_num))))

theorem accumulate_ok (image_PA : ℝ) (offset_r : Option ℝ) (offset_PA : ℝ)
    (opts : InstrumentOptions) (obj : Source) (st : LoopState) (scaled0 : HDU)
    (psfRest : HDUList) (eff : Option ℝ) (st' : LoopState)
    (h : accumulate image_PA offset_r offset_PA opts obj st scaled0 psfRest eff =
      Except.ok st') :
    st'.options = opts
  ∧ (primaryHistOfOpt st'.sum_image).filter isAddedB =
      (match st.sum_image with
       | none => scaled0.header.history.filter isAddedB
       | some simg => (primaryHistOfOpt (some simg)).filter isAddedB)
      ++ [mkAdded obj] := by
  obtain ⟨ssum, seff, sopts⟩ := st
  cases eff with
  | none =>
      cases ssum with
      | none => simp [accumulate] at h
      | some simg =>
          cases simg with
          | nil => simp [accumulate] at h
          | cons s0 srest => simp [accumulate] at h
  | some e =>
      cases ssum with
      | none =>
          cases offset_r with
          | none =>
              simp only [accumulate] at h
              cases h
              refine And.intro rfl ?_
              simp [primaryHistOfOpt, Header.add_history, Header.update,
                List.filter_append, isAddedB, mkAdded]
          | some r =>
              simp only [accumulate] at h
              cases h
              refine And.intro rfl ?_
              simp [primaryHistOfOpt, Header.add_history, Header.update,
                List.filter_append, isAddedB, mkAdded]
      | some simg =>
          cases simg with
          | nil => simp [accumulate] at h
          | cons s0 srest =>
              simp only [accumulate] at h
              cases h
              refine And.intro rfl ?_
              simp [primaryHistOfOpt, Header.add_history, Header.update,
                List.filter_append, isAddedB, mkAdded]

theorem processSource_ok (inst : Instrument) (rebin : Bool) (image_PA : ℝ)
    (offset_r : Option ℝ) (offset_PA : ℝ) (st st' : LoopState) (obj : Source)
    (hclean : CleanPSF inst)
    (h : processSource inst rebin image_PA offset_r offset_PA st obj =
      Except.ok st') :
    st'.options = InstrumentOptions.mk
        (resolveOffset image_PA offset_r offset_PA obj.separation obj.PA).1
        (resolveOffset image_PA offset_r offset_PA obj.separation obj.PA).2
  ∧ (primaryHistOfOpt st'.sum_image).filter isAddedB =
      (primaryHistOfOpt st.sum_image).filter isAddedB ++ [mkAdded obj] := by
  simp only [processSource] at h
  cases hpsf : inst.calcPSF obj.spectrum
      (InstrumentOptions.mk
        (resolveOffset image_PA offset_r offset_PA obj.separation obj.PA).1
        (resolveOffset image_PA offset_r offset_PA obj.separation obj.PA).2)
      rebin with
  | nil =>
      rw [hpsf] at h
      simp at h
  | cons psf0 psfRest =>
      rw [hpsf] at h
      have hc0 : psf0.header.history.filter isAddedB = [] :=
        hclean _ _ _ _ _ hpsf
      cases hnorm : obj.normalization with
      | none =>
          rw [hnorm] at h
          simp only [] at h
          have hacc := accumulate_ok _ _ _ _ _ _ _ _ _ _ h
          refine And.intro hacc.1 ?_
          rw [hacc.2]
          cases hst : st.sum_image with
          | none => simp [hst, hc0, primaryHistOfOpt]
          | some simg => simp [hst]
      | some nv =>
          cases nv with
          | nonNumber =>
              rw [hnorm] at h
              simp at h
          | num k =>
              rw [hnorm] at h
              simp only [] at h
              have hacc := accumulate_ok _ _ _ _ _ _ _ _ _ _ h
              refine And.intro hacc.1 ?_
              rw [hacc.2]
              cases hst : st.sum_image with
              | none => simp [hst, hc0, primaryHistOfOpt]
              | some simg => simp [hst]

theorem processSource_options (inst : Instrument) (rebin : Bool)
    (image_PA : ℝ) (offset_r : Option ℝ) (offset_PA : ℝ) (st st' : LoopState)
    (obj : Source)
    (h : processSource inst rebin image_PA offset_r offset_PA st obj =
      Except.ok st') :
    st'.options = InstrumentOptions.mk
      (resolveOffset image_PA offset_r offset_PA obj.separation obj.PA).1
      (resolveOffset image_PA offset_r offset_PA obj.separation obj.PA).2 := by
  simp only [processSource] at h
  cases hpsf : inst.calcPSF obj.spectrum
      (InstrumentOptions.mk
        (resolveOffset image_PA offset_r offset_PA obj.separation obj.PA).1
        (resolveOffset image_PA offset_r offset_PA obj.separation obj.PA).2)
      rebin with
  | nil =>
      rw [hpsf] at h
      simp at h
  | cons psf0 psfRest =>
      rw [hpsf] at h
      cases hnorm : obj.normalization with
      | none =>
          rw [hnorm] at h
          exact (accumulate_ok _ _ _ _ _ _ _ _ _ _ h).1
      | some nv =>
          cases nv with
          | nonNumber =>
              rw [hnorm] at h
              simp at h
          | num k =>
              rw [hnorm] at h
              exact (accumulate_ok _ _ _ _ _ _ _ _ _ _ h).1

theorem runSources_filter (inst : Instrument) (rebin : Bool) (image_PA : ℝ)
    (offset_r : Option ℝ) (offset_PA : ℝ) (hclean : CleanPSF inst) :
    ∀ (l : List Source) (st st' : LoopState),
      runSources inst rebin image_PA offset_r offset_PA st l = Except.ok st' →
      (primaryHistOfOpt st'.sum_image).filter isAddedB =
        (primaryHistOfOpt st.sum_image).filter isAddedB ++ l.map mkAdded := by
  intro l
  induction l with
  | nil =>
      intro st st' h
      simp only [runSources] at h
      cases h
      simp
  | cons obj rest ih =>
      intro st st' h
      simp only [runSources] at h
      cases hp : processSource inst rebin image_PA offset_r offset_PA st obj with
      | error e =>
          rw [hp] at h
          have h2 : (Except.error e : Except PyErr LoopState) = Except.ok st' := h
          cases h2
      | ok st2 =>
          rw [hp] at h
          have h2 : runSources inst rebin image_PA offset_r offset_PA st2 rest =
              Except.ok st' := h
          have hfirst := processSource_ok _ _ _ _ _ _ _ _ hclean hp
          have hrest := ih st2 st' h2
          rw [hrest, hfirst.2, List.append_assoc]
          simp

theorem runSources_last_options (inst : Instrument) (rebin : Bool)
    (image_PA : ℝ) (offset_r : Option ℝ) (offset_PA : ℝ) :
    ∀ (l : List Source) (obj : Source) (st st' : LoopState),
      runSources inst rebin image_PA offset_r offset_PA st (l ++ [obj]) =
        Except.ok st' →
      st'.options = InstrumentOptions.mk
        (resolveOffset image_PA offset_r offset_PA obj.separation obj.PA).1
        (resolveOffset image_PA offset_r offset_PA obj.separation obj.PA).2 := by
  intro l
  induction l with
  | nil =>
      intro obj st st' h
      simp only [List.nil_append, runSources] at h
      cases hp : processSource inst rebin image_PA offset_r offset_PA st obj with
      | error e =>
          rw [hp] at h
          have h2 : (Except.error e : Except PyErr LoopState) = Except.ok st' := h
          cases h2
      | ok st2 =>
          rw [hp] at h
          have h2 : runSources inst rebin image_PA offset_r offset_PA st2 [] =
              Except.ok st' := h
          simp only [runSources] at h2
          cases h2
          exact processSource_options _ _ _ _ _ _ _ _ hp
  | cons o2 rest ih =>
      intro obj st st' h
      simp only [List.cons_append, runSources] at h
      cases hp : processSource inst rebin image_PA offset_r offset_PA st o2 with
      | error e =>
          rw [hp] at h
          have h2 : (Except.error e : Except PyErr LoopState) = Except.ok st' := h
          cases h2
      | ok st2 =>
          rw [hp] at h
          have h2 : runSources inst rebin image_PA offset_r offset_PA st2
              (rest ++ [obj]) = Except.ok st' := h
          exact ih obj st2 st' h2

theorem rebinStep_ok_head (rebin : Bool) (h0 : HDU) (t out : HDUList)
    (hr : rebinStep rebin (h0 :: t) = Except.ok out) :
    ∃ rest, out = h0 :: rest := by
  simp only [rebinStep] at hr
  split at hr
  · split at hr
    · cases hr
    · cases hr
    · cases hr
    · rename_i n hget
      split at hr
      · cases t with
        | nil =>
            simp only [List.dropLast] at hr
            cases hr
        | cons a t2 =>
            simp only [List.dropLast] at hr
            split at hr
            · cases hr
            · cases hr
            · cases hr
            · split at hr
              · cases hr
              · cases hr
              · cases hr
                exact Exists.intro _ rfl
              · cases hr
                exact Exists.intro _ rfl
      · cases hr
        exact Exists.intro t rfl
  · cases hr
    exact Exists.intro t rfl

/-- C6: for every scene processed successfully by `calcImage` with no
pointing offset (any number of sources, any rebin setting), the returned
primary header of the composite records `NSOURCES` equal to the number of
sources in the scene, and its history log contains exactly one
"Added source" provenance entry per source, in the order in which the
sources were added (the filtered history equals the source list mapped to
its provenance entries).  The hypothesis `CleanPSF` says the external
simulator produces PSF headers with no "Added source" lines, which only
`calcImage` writes. -/
theorem calcImage_nsources_and_history (inst : Instrument)
    (sources : List Source) (outfile : Option String) (rebin clobber : Bool)
    (PA : ℝ) (offset_PA : ℝ) (opts0 : InstrumentOptions)
    (hclean : CleanPSF inst)
    (hok : exceptOk (calcImage inst sources outfile false rebin clobber PA
      none offset_PA opts0) = true) :
    (primaryHistoryOf (calcImage inst sources outfile false rebin clobber PA
        none offset_PA opts0)).filter isAddedB = sources.map mkAdded
  ∧ primaryCardOf (calcImage inst sources outfile false rebin clobber PA
      none offset_PA opts0) "NSOURCES" = some (HVal.int sources.length) := by
  cases hres : calcImage inst sources outfile false rebin clobber PA none
      offset_PA opts0 with
  | error e =>
      rw [hres] at hok
      simp [exceptOk] at hok
  | ok res =>
      simp only [calcImage] at hres
      split at hres
      · cases hres
      · rename_i st hrun
        have hfil := runSources_filter inst rebin PA none offset_PA hclean
          sources (LoopState.mk none none opts0) st hrun
        simp only [Bool.false_eq_true, if_false] at hres
        split at hres
        · cases hres
        · rename_i simg hsum
          rw [hsum] at hfil
          split at hres
          · cases hres
          · rename_i s0 srest
            have hfil2 : s0.header.history.filter isAddedB =
                sources.map mkAdded := by
              simpa [primaryHistOfOpt] using hfil
            split at hres
            · cases hres
            · rename_i simg3 hrb
              obtain ⟨rest3, hhead3⟩ := rebinStep_ok_head _ _ _ _ hrb
              subst hhead3
              split at hres
              · have h2 := Except.ok.inj hres
                subst h2
                constructor
                · simpa [primaryHistoryOf, Header.update] using hfil2
                · simp [primaryCardOf]
                  exact Header.get_update_self _ _ _
              · rename_i f
                have h2 := Except.ok.inj hres
                subst h2
                constructor
                · simpa [primaryHistoryOf, Header.update] using hfil2
                · simp only [primaryCardOf]
                  rw [Header.get_update_ne _ _ _ _
                    (by decide : "NSOURCES" ≠ "FILENAME")]
                  exact Header.get_update_self _ _ _

/-- Witness for the NSOURCES/history theorem on a concrete two-source
scene driven through the concrete test instrument. -/
theorem calcImage_nsources_and_history_witness :
    (primaryHistoryOf (calcImage testInst [srcImplicitA, srcImplicitB] none
        false true true 0 none 0 (InstrumentOptions.mk 0 0))).filter isAddedB =
      [srcImplicitA, srcImplicitB].map mkAdded
  ∧ primaryCardOf (calcImage testInst [srcImplicitA, srcImplicitB] none false
      true true 0 none 0 (InstrumentOptions.mk 0 0)) "NSOURCES" =
      some (HVal.int ([srcImplicitA, srcImplicitB] : List Source).length) := by
  have hclean : CleanPSF testInst := by
    intro sp opts rb h t hh
    have hh2 : unitPSF = h :: t := hh
    injection hh2 with h1 h2
    subst h1
    rfl
  exact calcImage_nsources_and_history testInst [srcImplicitA, srcImplicitB]
    none true true 0 0 (InstrumentOptions.mk 0 0) hclean rfl

/-- C10: `calcImage` overwrites the caller-supplied instrument options
mapping in place for each source; after a successful call the keys
`source_offset_r` and `source_offset_theta` remain set to the resolved
offset of the last source processed — independently of the options the
caller had set before the call, which are never restored. -/
theorem calcImage_leaves_last_offset_in_options (inst : Instrument)
    (sources : List Source) (outfile : Option String) (rebin clobber : Bool)
    (PA : ℝ) (offset_r : Option ℝ) (offset_PA : ℝ)
    (opts0 : InstrumentOptions) (l : List Source) (obj : Source)
    (hsrc : sources = l ++ [obj])
    (hok : exceptOk (calcImage inst sources outfile false rebin clobber PA
      offset_r offset_PA opts0) = true) :
    optionsOf (calcImage inst sources outfile false rebin clobber PA
        offset_r offset_PA opts0) =
      some (InstrumentOptions.mk
        (resolveOffset PA offset_r offset_PA obj.separation obj.PA).1
        (resolveOffset PA offset_r offset_PA obj.separation obj.PA).2) := by
  subst hsrc
  cases hres : calcImage inst (l ++ [obj]) outfile false rebin clobber PA
      offset_r offset_PA opts0 with
  | error e =>
      rw [hres] at hok
      simp [exceptOk] at hok
  | ok res =>
      simp only [calcImage] at hres
      split at hres
      · cases hres
      · rename_i st hrun
        have hopt := runSources_last_options inst rebin PA offset_r offset_PA
          l obj _ _ hrun
        simp only [Bool.false_eq_true, if_false] at hres
        split at hres
        · cases hres
        · split at hres
          · cases hres
          · split at hres
            · cases hres
            · rename_i simg3 hrb
              split at hres
              · have h2 := Except.ok.inj hres
                subst h2
                simp [optionsOf, hopt]
              · obtain ⟨rest3, hh3⟩ := rebinStep_ok_head _ _ _ _ hrb
                subst hh3
                have h2 := Except.ok.inj hres
                subst h2
                simp [optionsOf, hopt]

/-- Witness for the last-offset theorem on a concrete two-source scene. -/
theorem calcImage_leaves_last_offset_in_options_witness :
    optionsOf (calcImage testInst [srcImplicitA, srcImplicitB] none false
        false true 0 none 0 (InstrumentOptions.mk 0 0)) =
      some (InstrumentOptions.mk
        (resolveOffset 0 none 0 srcImplicitB.separation srcImplicitB.PA).1
        (resolveOffset 0 none 0 srcImplicitB.separation srcImplicitB.PA).2) :=
  calcImage_leaves_last_offset_in_options testInst
    [srcImplicitA, srcImplicitB] none false true 0 none 0
    (InstrumentOptions.mk 0 0) [srcImplicitA] srcImplicitB rfl rfl

/-- The header that the rebinning step writes on the regenerated
detector-sampled extension (lines 196-199): `OVERSAMP = 1`,
`CALCSAMP = factor`, `EXTNAME = DET_SAMP`, `PIXELSCL` multiplied by the
factor. -/
def rebinnedHeader (hdr : Header) (m : ℤ) (ps : ℝ) : Header :=
  (((hdr.update "OVERSAMP" (HVal.int 1)).update "CALCSAMP"
    (HVal.int m)).update "EXTNAME" (HVal.str "DET_SAMP")).update "PIXELSCL"
    (HVal.num (ps * (m : ℝ)))

/-- C8: with `rebin` set and an oversampling factor `DET_SAMP = n > 1` on
the primary header (a float `PIXELSCL = ps` card present), the rebinning
step of `calcImage` removes the last extension and appends a copy of the
primary whose data is `rebin_array` of the primary data by the factor and
whose header carries `OVERSAMP = 1`, `CALCSAMP = n`, `EXTNAME = DET_SAMP`
and `PIXELSCL = ps * n`; the primary extension itself — its pixel data in
particular — is unchanged (it stays the head of the result). -/
theorem rebinStep_replaces_last_extension (h0 : HDU) (t : HDUList) (n : ℤ)
    (ps : ℝ) (hds : h0.header.get "DET_SAMP" = some (HVal.int n))
    (hn : 1 < n) (hps : h0.header.get "PIXELSCL" = some (HVal.num ps))
    (ht : t ≠ []) :
    rebinStep true (h0 :: t) = Except.ok ((h0 :: t).dropLast ++
        [HDU.mk (rebin_array h0.data n.toNat) (rebinnedHeader h0.header n ps)])
  ∧ ((h0 :: t).dropLast ++ [HDU.mk (rebin_array h0.data n.toNat)
      (rebinnedHeader h0.header n ps)]).head? = some h0
  ∧ (rebinnedHeader h0.header n ps).get "OVERSAMP" = some (HVal.int 1)
  ∧ (rebinnedHeader h0.header n ps).get "CALCSAMP" = some (HVal.int n)
  ∧ (rebinnedHeader h0.header n ps).get "EXTNAME" =
      some (HVal.str "DET_SAMP")
  ∧ (rebinnedHeader h0.header n ps).get "PIXELSCL" =
      some (HVal.num (ps * (n : ℝ)))
  ∧ (rebinnedHeader h0.header n ps).history = h0.header.history := by
  obtain ⟨a, t2, rfl⟩ : ∃ a t2, t = a :: t2 := by
    cases t with
    | nil => exact absurd rfl ht
    | cons a t2 => exact ⟨a, t2, rfl⟩
  have hget3 : (((h0.header.update "OVERSAMP" (HVal.int 1)).update "CALCSAMP"
      (HVal.int n)).update "EXTNAME" (HVal.str "DET_SAMP")).get "PIXELSCL" =
      some (HVal.num ps) := by
    rw [Header.get_update_ne _ _ _ _ (by decide : "PIXELSCL" ≠ "EXTNAME"),
      Header.get_update_ne _ _ _ _ (by decide : "PIXELSCL" ≠ "CALCSAMP"),
      Header.get_update_ne _ _ _ _ (by decide : "PIXELSCL" ≠ "OVERSAMP"),
      hps]
  refine And.intro ?_ (And.intro ?_ (And.intro ?_ (And.intro ?_
    (And.intro ?_ (And.intro ?_ ?_)))))
  · simp [rebinStep, hds, hn, hget3, List.dropLast, rebinnedHeader]
  · simp [List.dropLast]
  · rw [rebinnedHeader,
      Header.get_update_ne _ _ _ _ (by decide : "OVERSAMP" ≠ "PIXELSCL"),
      Header.get_update_ne _ _ _ _ (by decide : "OVERSAMP" ≠ "EXTNAME"),
      Header.get_update_ne _ _ _ _ (by decide : "OVERSAMP" ≠ "CALCSAMP")]
    exact Header.get_update_self _ _ _
  · rw [rebinnedHeader,
      Header.get_update_ne _ _ _ _ (by decide : "CALCSAMP" ≠ "PIXELSCL"),
      Header.get_update_ne _ _ _ _ (by decide : "CALCSAMP" ≠ "EXTNAME")]
    exact Header.get_update_self _ _ _
  · rw [rebinnedHeader,
      Header.get_update_ne _ _ _ _ (by decide : "EXTNAME" ≠ "PIXELSCL")]
    exact Header.get_update_self _ _ _
  · rw [rebinnedHeader]
    exact Header.get_update_self _ _ _
  · rfl

/-- Witness for the rebinning-step theorem at the concrete test PSF
(factor 2, pixel scale 3). -/
theorem rebinStep_replaces_last_extension_witness :
    rebinStep true (unitPrimary :: [unitDet]) = Except.ok
        ((unitPrimary :: [unitDet]).dropLast ++
          [HDU.mk (rebin_array unitPrimary.data (2 : ℤ).toNat)
            (rebinnedHeader unitPrimary.header 2 3)])
  ∧ ((unitPrimary :: [unitDet]).dropLast ++
      [HDU.mk (rebin_array unitPrimary.data (2 : ℤ).toNat)
        (rebinnedHeader unitPrimary.header 2 3)]).head? = some unitPrimary
  ∧ (rebinnedHeader unitPrimary.header 2 3).get "OVERSAMP" =
      some (HVal.int 1)
  ∧ (rebinnedHeader unitPrimary.header 2 3).get "CALCSAMP" =
      some (HVal.int 2)
  ∧ (rebinnedHeader unitPrimary.header 2 3).get "EXTNAME" =
      some (HVal.str "DET_SAMP")
  ∧ (rebinnedHeader unitPrimary.header 2 3).get "PIXELSCL" =
      some (HVal.num (3 * ((2 : ℤ) : ℝ)))
  ∧ (rebinnedHeader unitPrimary.header 2 3).history =
      unitPrimary.header.history :=
  rebinStep_replaces_last_extension unitPrimary [unitDet] 2 3 rfl
    (by decide) rfl (List.cons_ne_nil _ _)
